import Mathlib

/-!
Shallow embedding in Lean 4 of the Supply Coverage Reconciliation Engine of
`app_gestion_insumos` (files `src/modules/utils_gestion_de_insumos.py`,
`src/funciones.py`, `src/app_gestion_de_insumos.py`), together with theorems
settling the specification claims about it.

Modelling conventions:
- pandas numeric columns are modelled as `ℚ` (exact rationals); rows are Lean
  structures whose fields keep the source column names;
- a DataFrame is a `List` of row structures; `groupby(...).sum()` is modelled
  as the list of distinct keys paired with the sum of the column over the
  rows having that key; `df[df[c] == v]` is `List.filter`;
- Python string comparison (used by the source in the column filter
  `c <= col`) is embedded explicitly as code-point lexicographic order
  (`pyStrLe`), matching CPython's semantics on these ASCII column names;
- a left-join column that can be missing (`NaN`) is modelled either as
  `Option` or, where the IEEE special values matter (claim about `NaN`
  versus `inf` replacement), by the dedicated type `FVal` below.
-/

/-- Code-point comparison of character lists, the order CPython uses for
`str <= str` on ASCII data. -/
def pyLeAux : List Char → List Char → Bool
  | [], _ => true
  | _ :: _, [] => false
  | a :: as, b :: bs =>
    if a.toNat < b.toNat then true
    else if a.toNat = b.toNat then pyLeAux as bs
    else false

/-- Python's `s1 <= s2` on strings: lexicographic over code points. -/
def pyStrLe (a b : String) : Bool := pyLeAux a.data b.data

/-! ## Key Normalizer
`generar_id_localidad` and the composite key construction
(`utils_gestion_de_insumos.py` lines 8-19 and 44-46, `funciones.py` 7-19). -/

/-- `generar_id_localidad(centro, almacen)`: the center code, except that the
(TCNO, HUB) pair collapses to the distinct identity TCNO-HUB. -/
def generar_id_localidad (centro almacen : String) : String :=
  if centro = "TCNO" ∧ almacen = "HUB" then "TCNO-HUB" else centro

/-- `id_localidad_insumo`: bare concatenation of the location identity with
the material code cast to string (`df['id_localidad'] +
df['id_insumo'].astype(str)`, line 45).  Material codes are modelled as `ℕ`;
`toString` is the `astype(str)` cast. -/
def id_localidad_insumo (idLocalidad : String) (idInsumo : ℕ) : String :=
  idLocalidad ++ toString idInsumo

/-! ## Consumption Estimator
`procesar_datos_principales` (`app_gestion_de_insumos.py` lines 181-195) and
the operational-days table produced by `consultar_pesca`
(`utils_gestion_de_insumos.py` lines 266-272). -/

/-- One row of the MB51 movement ledger: raw center / sub-location codes, the
material code, and the signed movement quantity (`Cantidad`). -/
structure Mb51Row where
  centro : String
  almacen : String
  material : ℕ
  cantidad : ℚ
deriving DecidableEq

/-- The (id_localidad, id_insumo) grouping key that
`generar_ids_y_stock` attaches to an MB51 row. -/
def mb51Key (r : Mb51Row) : String × ℕ :=
  (generar_id_localidad r.centro r.almacen, r.material)

/-- The signed group total
`dfs['mb51'].groupby(['id_localidad','id_insumo'])['Cantidad'].sum()`. -/
def sumCantidad (rows : List Mb51Row) (k : String × ℕ) : ℚ :=
  ((rows.filter (fun r => mb51Key r == k)).map (·.cantidad)).sum

/-- The total-consumed quantity the code attaches to a group:
`....sum().abs()` (line 182) — the absolute value is taken AFTER summing. -/
def consumoTotalCantidad (rows : List Mb51Row) (k : String × ℕ) : ℚ :=
  |sumCantidad rows k|

/-- `consultar_pesca`'s per-plant operational-days table: the number of
distinct (WERKS, FCSAZ) pairs for the plant (`value_counts` over
`drop_duplicates`, lines 270-272), left-joined by location: a location absent
from the table gets `none` (NaN). -/
def dias_de_pesca (eventos : List (String × String)) (idLocalidad : String) :
    Option ℕ :=
  if (eventos.dedup.filter (fun e => e.1 == idLocalidad)).length = 0 then none
  else some (eventos.dedup.filter (fun e => e.1 == idLocalidad)).length

/-- A plant that appears in the operational-days table has at least one
distinct activity date: `value_counts` never produces a zero count. -/
theorem dias_de_pesca_ge_uno (eventos : List (String × String))
    (idLocalidad : String) (n : ℕ)
    (h : dias_de_pesca eventos idLocalidad = some n) : 1 ≤ n := by
  rw [dias_de_pesca] at h
  split at h
  · exact Option.noConfusion h
  · rename_i hne
    cases h
    omega

/-- `df_consumo_total['consumo_diario'] = Cantidad /
dias_de_pesca.fillna(1)` (line 194): the daily rate, with a missing day
count replaced by 1 before dividing. -/
def consumo_diario (cantidad : ℚ) (dias : Option ℕ) : ℚ :=
  cantidad / ((dias.getD 1 : ℕ) : ℚ)

/-! ## Theorems for claims C2, C7, C9 -/

/-- Claim C2, counterexample: for the ledger group {+10, −4} the code's
total-consumed is |10 − 4| = 6, not |10| + |−4| = 14 as the claim states
(sum of absolute values). -/
theorem c2_counterexample :
    ¬ (consumoTotalCantidad
        [⟨"A", "X", 1, 10⟩, ⟨"A", "X", 1, -4⟩] ("A", 1) =
      ((([⟨"A", "X", 1, 10⟩, ⟨"A", "X", 1, -4⟩] :
          List Mb51Row).filter
            (fun r => mb51Key r == ("A", 1))).map (fun r => |r.cantidad|)).sum) := by
  have hf : (([⟨"A", "X", 1, 10⟩, ⟨"A", "X", 1, -4⟩] :
      List Mb51Row).filter (fun r => mb51Key r == ("A", 1))) =
      [⟨"A", "X", 1, 10⟩, ⟨"A", "X", 1, -4⟩] := rfl
  simp only [consumoTotalCantidad, sumCantidad, hf, List.map_cons,
    List.map_nil, List.sum_cons, List.sum_nil]
  norm_num

/-- Claim C2 (amended): the total-consumed quantity attached to a
(location identity, material) group is the absolute value of the SUM of the
signed row quantities of the group; it coincides with the claimed sum of
absolute values exactly when all quantities of the group share a sign (shown
here for the non-negative case). -/
theorem c2_consumo_total_abs_de_suma (rows : List Mb51Row) (k : String × ℕ) :
    consumoTotalCantidad rows k =
      |((rows.filter (fun r => mb51Key r == k)).map (·.cantidad)).sum| ∧
    ((∀ r ∈ rows.filter (fun r => mb51Key r == k), 0 ≤ r.cantidad) →
      consumoTotalCantidad rows k =
        ((rows.filter (fun r => mb51Key r == k)).map (fun r => |r.cantidad|)).sum) := by
  constructor
  · rfl
  · intro hpos
    have hmapeq :
        (rows.filter (fun r => mb51Key r == k)).map (fun r => |r.cantidad|) =
        (rows.filter (fun r => mb51Key r == k)).map (·.cantidad) := by
      apply List.map_congr_left
      intro r hr
      exact abs_of_nonneg (hpos r hr)
    rw [consumoTotalCantidad, sumCantidad, hmapeq]
    apply abs_of_nonneg
    apply List.sum_nonneg
    intro x hx
    rcases List.mem_map.mp hx with ⟨r, hr, hrx⟩
    exact hrx ▸ hpos r hr

/-- Claim C2 witness: the amended theorem applied at a concrete ledger. -/
theorem c2_witness :
    consumoTotalCantidad [⟨"A", "X", 1, 10⟩, ⟨"A", "X", 1, 4⟩] ("A", 1) =
      ((([⟨"A", "X", 1, 10⟩, ⟨"A", "X", 1, 4⟩] :
          List Mb51Row).filter
            (fun r => mb51Key r == ("A", 1))).map (fun r => |r.cantidad|)).sum :=
  (c2_consumo_total_abs_de_suma
      [⟨"A", "X", 1, 10⟩, ⟨"A", "X", 1, 4⟩] ("A", 1)).2 (by decide)

/-- Claim C7: the daily rate equals the total consumed divided by
max(1, operational days) — because a plant present in the activity table has
at least one distinct activity date, so the `fillna(1)` default and the
claimed `max(1, ·)` agree — and a location with missing operational days gets
rate = total consumed (divided by the default 1), never infinite or null. -/
theorem c7_consumo_diario_dias_default (eventos : List (String × String))
    (idLocalidad : String) (cantidad : ℚ) :
    consumo_diario cantidad (dias_de_pesca eventos idLocalidad) =
      cantidad /
        max 1 ((((dias_de_pesca eventos idLocalidad).getD 1 : ℕ)) : ℚ) ∧
    (dias_de_pesca eventos idLocalidad = none →
      consumo_diario cantidad (dias_de_pesca eventos idLocalidad) = cantidad) := by
  rcases hdias : dias_de_pesca eventos idLocalidad with _ | n
  · constructor
    · rw [consumo_diario]
      simp
    · intro _
      rw [consumo_diario]
      simp
  · have hn : 1 ≤ n := dias_de_pesca_ge_uno eventos idLocalidad n hdias
    constructor
    · rw [consumo_diario]
      simp only [Option.getD_some]
      rw [max_eq_right]
      exact_mod_cast hn
    · intro hnone
      exact Option.noConfusion hnone

/-- Claim C7 witness: a location absent from the activity table, with total
consumed 40, gets daily rate exactly 40. -/
theorem c7_witness :
    consumo_diario 40 (dias_de_pesca [("P1", "15/04/2024")] "P2") = 40 :=
  (c7_consumo_diario_dias_default [("P1", "15/04/2024")] "P2" 40).2 (by decide)

/-! ## Stock Tiering Splitter
`generar_ids_y_stock` and `generar_y_separar_mb52`
(`utils_gestion_de_insumos.py` lines 21-48 and 69-97, `funciones.py` 11-48). -/

/-- One row of the MB52 stock snapshot: raw center / sub-location codes
(`Centro`, `Almacén`), material code, and the free-use and
quality-inspection quantities. -/
structure Mb52Row where
  centro : String
  almacen : String
  material : ℕ
  libre : ℚ
  calidad : ℚ
deriving DecidableEq

/-- `df['stock_libre_mas_calidad'] = df['Libre utilización'] +
df['Inspecc.de calidad']` (line 42). -/
def stock_libre_mas_calidad (r : Mb52Row) : ℚ := r.libre + r.calidad

/-- The grouping key of `df.groupby(['id_localidad', 'Almacén', 'id_insumo',
'id_localidad_insumo'])` (line 83). -/
structure GroupKey where
  id_localidad : String
  almacen : String
  id_insumo : ℕ
  id_localidad_insumo : String
deriving DecidableEq

/-- The grouping key attached to an MB52 row by `generar_ids_y_stock`. -/
def mb52Key (r : Mb52Row) : GroupKey :=
  { id_localidad := generar_id_localidad r.centro r.almacen
    almacen := r.almacen
    id_insumo := r.material
    id_localidad_insumo :=
      id_localidad_insumo (generar_id_localidad r.centro r.almacen) r.material }

/-- One row of the grouped intermediate table `df_intermedio`. -/
structure GroupedRow where
  key : GroupKey
  stock_libre_mas_calidad : ℚ
deriving DecidableEq

/-- `df.groupby([...])['stock_libre_mas_calidad'].sum().reset_index()`
(line 83): one row per distinct key, with the summed quantity. -/
def agruparMb52 (rows : List Mb52Row) : List GroupedRow :=
  ((rows.map mb52Key).dedup).map (fun k =>
    ⟨k, ((rows.filter (fun r => mb52Key r == k)).map
      stock_libre_mas_calidad).sum⟩)

/-- The filter `df[df['Almacén'] == almacen]` used by `filter_and_rename`. -/
def filaEnAlmacen (alm : String) (r : GroupedRow) : Bool := r.key.almacen == alm

/-- The complement filter `~df['Almacén'].isin(['PI01', '', 'L003'])`
defining the general tier (line 94). -/
def filaEnGeneral (r : GroupedRow) : Bool :=
  !(r.key.almacen == "PI01" || r.key.almacen == "" || r.key.almacen == "L003")

/-- `generar_y_separar_mb52`: group, then split into the production
(`PI01`), transit (empty sub-location), hub (`L003`) and general
(remainder) tier tables. -/
def generar_y_separar_mb52 (rows : List Mb52Row) :
    List GroupedRow × List GroupedRow × List GroupedRow × List GroupedRow :=
  ((agruparMb52 rows).filter (filaEnAlmacen "PI01"),
   (agruparMb52 rows).filter (filaEnAlmacen ""),
   (agruparMb52 rows).filter (filaEnAlmacen "L003"),
   (agruparMb52 rows).filter filaEnGeneral)

/-- Any sub-location code satisfies exactly one of the four tier filters. -/
theorem almacen_exactamente_uno (r : GroupedRow) :
    (filaEnAlmacen "PI01" r = true ∧ filaEnAlmacen "" r = false ∧
      filaEnAlmacen "L003" r = false ∧ filaEnGeneral r = false) ∨
    (filaEnAlmacen "PI01" r = false ∧ filaEnAlmacen "" r = true ∧
      filaEnAlmacen "L003" r = false ∧ filaEnGeneral r = false) ∨
    (filaEnAlmacen "PI01" r = false ∧ filaEnAlmacen "" r = false ∧
      filaEnAlmacen "L003" r = true ∧ filaEnGeneral r = false) ∨
    (filaEnAlmacen "PI01" r = false ∧ filaEnAlmacen "" r = false ∧
      filaEnAlmacen "L003" r = false ∧ filaEnGeneral r = true) := by
  by_cases h1 : r.key.almacen = "PI01"
  · left
    simp only [filaEnAlmacen, filaEnGeneral, h1]
    decide
  by_cases h2 : r.key.almacen = ""
  · right; left
    simp only [filaEnAlmacen, filaEnGeneral, h2]
    decide
  by_cases h3 : r.key.almacen = "L003"
  · right; right; left
    simp only [filaEnAlmacen, filaEnGeneral, h3]
    decide
  · right; right; right
    refine ⟨?_, ?_, ?_, ?_⟩ <;> simp [filaEnAlmacen, filaEnGeneral, h1, h2, h3]

/-- `sum` of the quantity column of a tier (or grouped) table. -/
def sumStock (l : List GroupedRow) : ℚ :=
  (l.map (·.stock_libre_mas_calidad)).sum

/-- The quantity of a tier (or grouped) table restricted to one composite
key. -/
def sumStockComposite (l : List GroupedRow) (c : String) : ℚ :=
  sumStock (l.filter (fun r => r.key.id_localidad_insumo == c))

/-- Unfolding the tier quantity sum over a cons cell. -/
theorem sumStock_cons (r : GroupedRow) (t : List GroupedRow) :
    sumStock (r :: t) = r.stock_libre_mas_calidad + sumStock t := by
  simp [sumStock]

/-- The four tier filters split the quantity sum of any grouped table. -/
theorem sum_particion (l : List GroupedRow) :
    sumStock (l.filter (filaEnAlmacen "PI01")) +
    sumStock (l.filter (filaEnAlmacen "")) +
    sumStock (l.filter (filaEnAlmacen "L003")) +
    sumStock (l.filter filaEnGeneral) = sumStock l := by
  induction l with
  | nil => simp [sumStock]
  | cons r t ih =>
    rcases almacen_exactamente_uno r with ⟨h1, h2, h3, h4⟩ | ⟨h1, h2, h3, h4⟩ |
        ⟨h1, h2, h3, h4⟩ | ⟨h1, h2, h3, h4⟩
    · rw [List.filter_cons_of_pos h1, List.filter_cons_of_neg (by simp [h2]),
        List.filter_cons_of_neg (by simp [h3]),
        List.filter_cons_of_neg (by simp [h4])]
      simp only [sumStock_cons]
      linarith [ih]
    · rw [List.filter_cons_of_neg (by simp [h1]), List.filter_cons_of_pos h2,
        List.filter_cons_of_neg (by simp [h3]),
        List.filter_cons_of_neg (by simp [h4])]
      simp only [sumStock_cons]
      linarith [ih]
    · rw [List.filter_cons_of_neg (by simp [h1]),
        List.filter_cons_of_neg (by simp [h2]), List.filter_cons_of_pos h3,
        List.filter_cons_of_neg (by simp [h4])]
      simp only [sumStock_cons]
      linarith [ih]
    · rw [List.filter_cons_of_neg (by simp [h1]),
        List.filter_cons_of_neg (by simp [h2]),
        List.filter_cons_of_neg (by simp [h3]), List.filter_cons_of_pos h4]
      simp only [sumStock_cons]
      linarith [ih]

/-- Successive list filters commute. -/
theorem filtros_conmutan (l : List GroupedRow) (p q : GroupedRow → Bool) :
    (l.filter p).filter q = (l.filter q).filter p := by
  rw [List.filter_filter, List.filter_filter]
  apply List.filter_congr
  intro a _
  rw [Bool.and_comm]

/-- Claim C5: every grouped stock-snapshot row lands in exactly one of the
four tier tables (they are pairwise disjoint and cover the grouped table),
and per composite key the four tier quantities sum to the pre-split grouped
total. -/
theorem c5_particion_y_conservacion (rows : List Mb52Row) :
    (∀ r ∈ agruparMb52 rows,
      (r ∈ (generar_y_separar_mb52 rows).1 ∧
        r ∉ (generar_y_separar_mb52 rows).2.1 ∧
        r ∉ (generar_y_separar_mb52 rows).2.2.1 ∧
        r ∉ (generar_y_separar_mb52 rows).2.2.2) ∨
      (r ∉ (generar_y_separar_mb52 rows).1 ∧
        r ∈ (generar_y_separar_mb52 rows).2.1 ∧
        r ∉ (generar_y_separar_mb52 rows).2.2.1 ∧
        r ∉ (generar_y_separar_mb52 rows).2.2.2) ∨
      (r ∉ (generar_y_separar_mb52 rows).1 ∧
        r ∉ (generar_y_separar_mb52 rows).2.1 ∧
        r ∈ (generar_y_separar_mb52 rows).2.2.1 ∧
        r ∉ (generar_y_separar_mb52 rows).2.2.2) ∨
      (r ∉ (generar_y_separar_mb52 rows).1 ∧
        r ∉ (generar_y_separar_mb52 rows).2.1 ∧
        r ∉ (generar_y_separar_mb52 rows).2.2.1 ∧
        r ∈ (generar_y_separar_mb52 rows).2.2.2)) ∧
    (∀ c : String,
      sumStockComposite (generar_y_separar_mb52 rows).1 c +
      sumStockComposite (generar_y_separar_mb52 rows).2.1 c +
      sumStockComposite (generar_y_separar_mb52 rows).2.2.1 c +
      sumStockComposite (generar_y_separar_mb52 rows).2.2.2 c =
      sumStockComposite (agruparMb52 rows) c) := by
  constructor
  · intro r hr
    rcases almacen_exactamente_uno r with ⟨h1, h2, h3, h4⟩ | ⟨h1, h2, h3, h4⟩ |
        ⟨h1, h2, h3, h4⟩ | ⟨h1, h2, h3, h4⟩
    · left
      simp [generar_y_separar_mb52, List.mem_filter, hr, h1, h2, h3, h4]
    · right; left
      simp [generar_y_separar_mb52, List.mem_filter, hr, h1, h2, h3, h4]
    · right; right; left
      simp [generar_y_separar_mb52, List.mem_filter, hr, h1, h2, h3, h4]
    · right; right; right
      simp [generar_y_separar_mb52, List.mem_filter, hr, h1, h2, h3, h4]
  · intro c
    simp only [generar_y_separar_mb52, sumStockComposite]
    rw [filtros_conmutan _ (filaEnAlmacen "PI01"),
      filtros_conmutan _ (filaEnAlmacen ""),
      filtros_conmutan _ (filaEnAlmacen "L003"),
      filtros_conmutan _ filaEnGeneral]
    exact sum_particion _

/-- Claim C5 witness: the theorem applied to a one-row snapshot (the
production-tier row lands only in the production table and conservation
holds for its composite key). -/
theorem c5_witness :
    (((⟨⟨"A", "PI01", 7, "A7"⟩, 5⟩ : GroupedRow) ∈
        (generar_y_separar_mb52 [⟨"A", "PI01", 7, 2, 3⟩]).1 ∧
      (⟨⟨"A", "PI01", 7, "A7"⟩, 5⟩ : GroupedRow) ∉
        (generar_y_separar_mb52 [⟨"A", "PI01", 7, 2, 3⟩]).2.1 ∧
      (⟨⟨"A", "PI01", 7, "A7"⟩, 5⟩ : GroupedRow) ∉
        (generar_y_separar_mb52 [⟨"A", "PI01", 7, 2, 3⟩]).2.2.1 ∧
      (⟨⟨"A", "PI01", 7, "A7"⟩, 5⟩ : GroupedRow) ∉
        (generar_y_separar_mb52 [⟨"A", "PI01", 7, 2, 3⟩]).2.2.2) ∨
     ((⟨⟨"A", "PI01", 7, "A7"⟩, 5⟩ : GroupedRow) ∉
        (generar_y_separar_mb52 [⟨"A", "PI01", 7, 2, 3⟩]).1 ∧
      (⟨⟨"A", "PI01", 7, "A7"⟩, 5⟩ : GroupedRow) ∈
        (generar_y_separar_mb52 [⟨"A", "PI01", 7, 2, 3⟩]).2.1 ∧
      (⟨⟨"A", "PI01", 7, "A7"⟩, 5⟩ : GroupedRow) ∉
        (generar_y_separar_mb52 [⟨"A", "PI01", 7, 2, 3⟩]).2.2.1 ∧
      (⟨⟨"A", "PI01", 7, "A7"⟩, 5⟩ : GroupedRow) ∉
        (generar_y_separar_mb52 [⟨"A", "PI01", 7, 2, 3⟩]).2.2.2) ∨
     ((⟨⟨"A", "PI01", 7, "A7"⟩, 5⟩ : GroupedRow) ∉
        (generar_y_separar_mb52 [⟨"A", "PI01", 7, 2, 3⟩]).1 ∧
      (⟨⟨"A", "PI01", 7, "A7"⟩, 5⟩ : GroupedRow) ∉
        (generar_y_separar_mb52 [⟨"A", "PI01", 7, 2, 3⟩]).2.1 ∧
      (⟨⟨"A", "PI01", 7, "A7"⟩, 5⟩ : GroupedRow) ∈
        (generar_y_separar_mb52 [⟨"A", "PI01", 7, 2, 3⟩]).2.2.1 ∧
      (⟨⟨"A", "PI01", 7, "A7"⟩, 5⟩ : GroupedRow) ∉
        (generar_y_separar_mb52 [⟨"A", "PI01", 7, 2, 3⟩]).2.2.2) ∨
     ((⟨⟨"A", "PI01", 7, "A7"⟩, 5⟩ : GroupedRow) ∉
        (generar_y_separar_mb52 [⟨"A", "PI01", 7, 2, 3⟩]).1 ∧
      (⟨⟨"A", "PI01", 7, "A7"⟩, 5⟩ : GroupedRow) ∉
        (generar_y_separar_mb52 [⟨"A", "PI01", 7, 2, 3⟩]).2.1 ∧
      (⟨⟨"A", "PI01", 7, "A7"⟩, 5⟩ : GroupedRow) ∉
        (generar_y_separar_mb52 [⟨"A", "PI01", 7, 2, 3⟩]).2.2.1 ∧
      (⟨⟨"A", "PI01", 7, "A7"⟩, 5⟩ : GroupedRow) ∈
        (generar_y_separar_mb52 [⟨"A", "PI01", 7, 2, 3⟩]).2.2.2)) ∧
    (sumStockComposite (generar_y_separar_mb52 [⟨"A", "PI01", 7, 2, 3⟩]).1 "A7" +
     sumStockComposite (generar_y_separar_mb52 [⟨"A", "PI01", 7, 2, 3⟩]).2.1 "A7" +
     sumStockComposite (generar_y_separar_mb52 [⟨"A", "PI01", 7, 2, 3⟩]).2.2.1 "A7" +
     sumStockComposite (generar_y_separar_mb52 [⟨"A", "PI01", 7, 2, 3⟩]).2.2.2 "A7" =
     sumStockComposite (agruparMb52 [⟨"A", "PI01", 7, 2, 3⟩]) "A7") :=
  ⟨(c5_particion_y_conservacion [⟨"A", "PI01", 7, 2, 3⟩]).1
      ⟨⟨"A", "PI01", 7, "A7"⟩, 5⟩
      (by
        norm_num [agruparMb52, mb52Key, generar_id_localidad,
          id_localidad_insumo, stock_libre_mas_calidad]
        decide),
   (c5_particion_y_conservacion [⟨"A", "PI01", 7, 2, 3⟩]).2 "A7"⟩

/-- Claim C9: the composite key is the bare concatenation of the location
identity and the material code cast to string, so it is not injective: the
distinct pairs (location "A", material 11) and (location "A1", material 1) —
both location identities being fixed points of `generar_id_localidad` —
produce the same key "A11". -/
theorem c9_clave_compuesta_no_inyectiva :
    ∃ p q : String × ℕ, p ≠ q ∧
      p.1 = generar_id_localidad "A" "X" ∧
      q.1 = generar_id_localidad "A1" "X" ∧
      id_localidad_insumo p.1 p.2 = id_localidad_insumo q.1 q.2 := by
  refine ⟨("A", 11), ("A1", 1), ?_, ?_, ?_, ?_⟩ <;> decide

/-! ## Coverage Calculator
`calcular_cobertura` and the per-key part of `procesar_datos`
(`utils_gestion_de_insumos.py` lines 99-187, `funciones.py` 54-109).
Rows are modelled after the merges and the `fillna(0)` of
`procesar_datos` (line 173), so every numeric column is a plain `ℚ`. -/

/-- The numeric columns of a joined base row that `calcular_cobertura`
reads. -/
structure CobRow where
  ratio_nominal : ℚ
  rendimiento : ℚ
  cobertura_ideal : ℚ
  maxima_descarga : ℚ
  stock_libre_mas_calidad_produccion : ℚ
  stock_libre_mas_calidad_transito : ℚ
  stock_libre_mas_calidad_hub : ℚ
  stock_libre_mas_calidad_general : ℚ
  consumo_diario : ℚ
deriving DecidableEq

/-- `df['stock_cobertura_ideal'] = ratio_nominal * maxima_descarga /
rendimiento * cobertura_ideal` (line 110): the coverage target. -/
def stock_cobertura_ideal (r : CobRow) : ℚ :=
  r.ratio_nominal * r.maxima_descarga / r.rendimiento * r.cobertura_ideal

/-- The tier-qualified stock column name. -/
def stockCol (tipo : String) : String := "stock_libre_mas_calidad_" ++ tipo

/-- The columns of the joined frame whose name starts with
`stock_libre_mas_calidad_`, in the order `procesar_datos` merges them
(lines 161-170); the un-suffixed total column does not match the
underscore-terminated prefix. -/
def stockColumns : List String :=
  [stockCol "produccion", stockCol "transito", stockCol "hub",
   stockCol "general"]

/-- Column access on a row for the four tier-stock column names. -/
def stockVal (r : CobRow) (c : String) : ℚ :=
  if c = stockCol "produccion" then r.stock_libre_mas_calidad_produccion
  else if c = stockCol "transito" then r.stock_libre_mas_calidad_transito
  else if c = stockCol "hub" then r.stock_libre_mas_calidad_hub
  else r.stock_libre_mas_calidad_general

/-- Line 119: `df[[c for c in df.columns if
c.startswith('stock_libre_mas_calidad_') and c <= col]].sum(axis=1)` —
the cumulative tier stock, where `c <= col` is Python string comparison
(code-point lexicographic, embedded by `pyStrLe`). -/
def acumulado (r : CobRow) (tipo : String) : ℚ :=
  ((stockColumns.filter (fun c => pyStrLe c (stockCol tipo))).map
    (stockVal r)).sum

/-- Lines 122-126: theoretical coverage, with the denominator
`stock_cobertura_ideal.replace(0, 1)` substituting 1 for an exact zero. -/
def cobertura_teorica_con_stock (r : CobRow) (tipo : String) : ℚ :=
  if r.ratio_nominal ≠ 0 then
    acumulado r tipo * r.cobertura_ideal /
      (if stock_cobertura_ideal r = 0 then 1 else stock_cobertura_ideal r)
  else 0

/-- Lines 128-132: real coverage (`acumulado / consumo_diario` when the
nominal ratio is non-zero).  In this all-rational model a zero daily rate
gives `x / 0 = 0` directly, so the infinity replacement of line 136 is a
no-op; the missing-value behaviour is modelled separately below. -/
def cobertura_real (r : CobRow) (tipo : String) : ℚ :=
  if r.ratio_nominal ≠ 0 then acumulado r tipo / r.consumo_diario else 0

/-- Line 176: `df_base['stock_libre_mas_calidad'] =
df_base[stock_columns].sum(axis=1)` — the total stock. -/
def stock_total (r : CobRow) : ℚ :=
  r.stock_libre_mas_calidad_produccion + r.stock_libre_mas_calidad_transito +
  r.stock_libre_mas_calidad_hub + r.stock_libre_mas_calidad_general

/-- Line 179: `excedentes = np.maximum(stock_libre_mas_calidad -
stock_cobertura_ideal, 0)`. -/
def excedentes (r : CobRow) : ℚ :=
  max (stock_total r - stock_cobertura_ideal r) 0

/-- Line 180: `faltantes = np.maximum(stock_cobertura_ideal -
stock_libre_mas_calidad, 0)`. -/
def faltantes (r : CobRow) : ℚ :=
  max (stock_cobertura_ideal r - stock_total r) 0

theorem stockVal_produccion (r : CobRow) :
    stockVal r (stockCol "produccion") = r.stock_libre_mas_calidad_produccion := by
  unfold stockVal
  rw [if_pos rfl]

theorem stockVal_transito (r : CobRow) :
    stockVal r (stockCol "transito") = r.stock_libre_mas_calidad_transito := by
  unfold stockVal
  rw [if_neg (by decide), if_pos rfl]

theorem stockVal_hub (r : CobRow) :
    stockVal r (stockCol "hub") = r.stock_libre_mas_calidad_hub := by
  unfold stockVal
  rw [if_neg (by decide), if_neg (by decide), if_pos rfl]

theorem stockVal_general (r : CobRow) :
    stockVal r (stockCol "general") = r.stock_libre_mas_calidad_general := by
  unfold stockVal
  rw [if_neg (by decide), if_neg (by decide), if_neg (by decide)]

/-- The general-tier accumulation is the general stock alone. -/
theorem acumulado_general (r : CobRow) :
    acumulado r "general" = r.stock_libre_mas_calidad_general := by
  unfold acumulado
  rw [show stockColumns.filter (fun c => pyStrLe c (stockCol "general")) =
    [stockCol "general"] from by decide]
  simp [stockVal_general]

/-- The hub accumulation is hub + general stock. -/
theorem acumulado_hub (r : CobRow) :
    acumulado r "hub" =
      r.stock_libre_mas_calidad_hub + r.stock_libre_mas_calidad_general := by
  unfold acumulado
  rw [show stockColumns.filter (fun c => pyStrLe c (stockCol "hub")) =
    [stockCol "hub", stockCol "general"] from by decide]
  simp [stockVal_hub, stockVal_general]

/-- The transit accumulation includes ALL FOUR tiers, because
`"stock_libre_mas_calidad_produccion" <= "stock_libre_mas_calidad_transito"`
holds in string order. -/
theorem acumulado_transito (r : CobRow) :
    acumulado r "transito" =
      r.stock_libre_mas_calidad_produccion + r.stock_libre_mas_calidad_transito +
      r.stock_libre_mas_calidad_hub + r.stock_libre_mas_calidad_general := by
  unfold acumulado
  rw [show stockColumns.filter (fun c => pyStrLe c (stockCol "transito")) =
    stockColumns from by decide]
  simp [stockColumns, stockVal_produccion, stockVal_transito, stockVal_hub,
    stockVal_general]
  ring

/-- The production accumulation excludes the transit stock
(`"..._transito" <= "..._produccion"` fails in string order). -/
theorem acumulado_produccion (r : CobRow) :
    acumulado r "produccion" =
      r.stock_libre_mas_calidad_produccion + r.stock_libre_mas_calidad_hub +
      r.stock_libre_mas_calidad_general := by
  unfold acumulado
  rw [show stockColumns.filter (fun c => pyStrLe c (stockCol "produccion")) =
    [stockCol "produccion", stockCol "hub", stockCol "general"] from by decide]
  simp [stockVal_produccion, stockVal_hub, stockVal_general]
  ring

/-- Claim C1: at the spec's own example row (production 100, transit 0,
hub 0, general 50, daily rate 30) the code's cumulative stocks are
general 50, hub 50, but transit 150 — the claim says 50 — and production
150: the accumulation follows the lexicographic column order
general, hub, produccion, transito, not the claimed fixed order
general, hub, transit, production.  The real coverage through transit is
therefore 5 days, not the 50/30 the claimed order would give. -/
theorem c1_orden_acumulacion_bug :
    acumulado ⟨1, 1, 1, 1, 100, 0, 0, 50, 30⟩ "general" = 50 ∧
    acumulado ⟨1, 1, 1, 1, 100, 0, 0, 50, 30⟩ "hub" = 50 ∧
    acumulado ⟨1, 1, 1, 1, 100, 0, 0, 50, 30⟩ "transito" = 150 ∧
    ¬ acumulado ⟨1, 1, 1, 1, 100, 0, 0, 50, 30⟩ "transito" = 50 ∧
    acumulado ⟨1, 1, 1, 1, 100, 0, 0, 50, 30⟩ "produccion" = 150 ∧
    cobertura_real ⟨1, 1, 1, 1, 100, 0, 0, 50, 30⟩ "produccion" = 5 ∧
    cobertura_real ⟨1, 1, 1, 1, 100, 0, 0, 50, 30⟩ "transito" = 5 ∧
    ¬ cobertura_real ⟨1, 1, 1, 1, 100, 0, 0, 50, 30⟩ "transito" = 50 / 30 := by
  norm_num [acumulado_general, acumulado_hub, acumulado_transito,
    acumulado_produccion, cobertura_real]

/-- Claim C6: surplus and shortage are the clamped differences of total
stock against the coverage target, both non-negative, at least one exactly
zero and never both positive. -/
theorem c6_excedentes_faltantes (r : CobRow) :
    excedentes r = max 0 (stock_total r - stock_cobertura_ideal r) ∧
    faltantes r = max 0 (stock_cobertura_ideal r - stock_total r) ∧
    0 ≤ excedentes r ∧ 0 ≤ faltantes r ∧
    (excedentes r = 0 ∨ faltantes r = 0) ∧
    ¬ (0 < excedentes r ∧ 0 < faltantes r) := by
  have hdisj : excedentes r = 0 ∨ faltantes r = 0 := by
    unfold excedentes faltantes
    rcases le_total (stock_total r) (stock_cobertura_ideal r) with h | h
    · left
      apply max_eq_right
      linarith
    · right
      apply max_eq_right
      linarith
  refine ⟨max_comm _ _, max_comm _ _, le_max_right _ _, le_max_right _ _,
    hdisj, ?_⟩
  rintro ⟨hp, hq⟩
  rcases hdisj with h | h
  · rw [h] at hp
    exact lt_irrefl 0 hp
  · rw [h] at hq
    exact lt_irrefl 0 hq

/-- Claim C3, counterexample: for a row with coverage target 1/2 (ratio 1,
unload capacity 1, yield 2, ideal days 1) and general stock 1, the code
divides by the target itself (`replace(0, 1)` leaves 1/2 untouched), giving
theoretical coverage 2, while the claimed denominator max(1/2, 1) = 1 would
give 1. -/
theorem c3_counterexample :
    ¬ (cobertura_teorica_con_stock ⟨1, 2, 1, 1, 0, 0, 0, 1, 1⟩ "general" =
      acumulado ⟨1, 2, 1, 1, 0, 0, 0, 1, 1⟩ "general" *
        (⟨1, 2, 1, 1, 0, 0, 0, 1, 1⟩ : CobRow).cobertura_ideal /
        max (stock_cobertura_ideal ⟨1, 2, 1, 1, 0, 0, 0, 1, 1⟩) 1) := by
  have hsci : stock_cobertura_ideal ⟨1, 2, 1, 1, 0, 0, 0, 1, 1⟩ = 1 / 2 := by
    norm_num [stock_cobertura_ideal]
  have hmax : max ((1 : ℚ) / 2) 1 = 1 := max_eq_right (by norm_num)
  rw [cobertura_teorica_con_stock, hsci, acumulado_general, hmax]
  norm_num

/-- Claim C3 (amended): for nominal_ratio ≠ 0 the theoretical coverage is
cumulative stock × ideal days divided by the coverage target WITH AN EXACT
ZERO REPLACED BY 1 (pandas `replace(0, 1)`), not by max(target, 1); for
nominal_ratio = 0 it is exactly 0.  The claimed max-formula does hold in the
two regimes the replace semantics and the max semantics agree on: target
exactly 0, or target at least 1. -/
theorem c3_cobertura_teorica_denominador (r : CobRow) (tipo : String) :
    (r.ratio_nominal ≠ 0 →
      cobertura_teorica_con_stock r tipo =
        acumulado r tipo * r.cobertura_ideal /
          (if stock_cobertura_ideal r = 0 then 1 else stock_cobertura_ideal r)) ∧
    (r.ratio_nominal = 0 → cobertura_teorica_con_stock r tipo = 0) ∧
    (stock_cobertura_ideal r = 0 ∨ 1 ≤ stock_cobertura_ideal r →
      cobertura_teorica_con_stock r tipo =
        if r.ratio_nominal ≠ 0 then
          acumulado r tipo * r.cobertura_ideal / max (stock_cobertura_ideal r) 1
        else 0) := by
  refine ⟨?_, ?_, ?_⟩
  · intro h
    rw [cobertura_teorica_con_stock, if_pos h]
  · intro h
    rw [cobertura_teorica_con_stock, if_neg (by simp [h])]
  · intro hcases
    by_cases hr : r.ratio_nominal = 0
    · rw [cobertura_teorica_con_stock, if_neg (by simp [hr]),
        if_neg (by simp [hr])]
    · rw [cobertura_teorica_con_stock, if_pos hr, if_pos hr]
      rcases hcases with h0 | h1
      · rw [if_pos h0, h0]
        rw [max_eq_right zero_le_one]
      · rw [if_neg (by linarith), max_eq_left h1]

/-- Claim C3 witness: the amended theorem applied at a concrete row with
target 1 (both hypotheses dischargeable). -/
theorem c3_witness :
    cobertura_teorica_con_stock ⟨1, 1, 1, 1, 0, 0, 0, 1, 1⟩ "general" =
      acumulado ⟨1, 1, 1, 1, 0, 0, 0, 1, 1⟩ "general" *
        (⟨1, 1, 1, 1, 0, 0, 0, 1, 1⟩ : CobRow).cobertura_ideal /
        (if stock_cobertura_ideal ⟨1, 1, 1, 1, 0, 0, 0, 1, 1⟩ = 0 then 1
         else stock_cobertura_ideal ⟨1, 1, 1, 1, 0, 0, 0, 1, 1⟩) ∧
    cobertura_teorica_con_stock ⟨1, 1, 1, 1, 0, 0, 0, 1, 1⟩ "general" =
      (if (⟨1, 1, 1, 1, 0, 0, 0, 1, 1⟩ : CobRow).ratio_nominal ≠ 0 then
        acumulado ⟨1, 1, 1, 1, 0, 0, 0, 1, 1⟩ "general" *
          (⟨1, 1, 1, 1, 0, 0, 0, 1, 1⟩ : CobRow).cobertura_ideal /
          max (stock_cobertura_ideal ⟨1, 1, 1, 1, 0, 0, 0, 1, 1⟩) 1
      else 0) :=
  ⟨(c3_cobertura_teorica_denominador ⟨1, 1, 1, 1, 0, 0, 0, 1, 1⟩ "general").1
      (by norm_num),
   (c3_cobertura_teorica_denominador ⟨1, 1, 1, 1, 0, 0, 0, 1, 1⟩ "general").2.2
      (Or.inr (by norm_num [stock_cobertura_ideal]))⟩

/-! ## Aggregator and analysis pipeline
The per-key result rows of `procesar_datos` and the per-material view
(`utils_gestion_de_insumos.py` lines 140-219), plus the tolerance parameter
of the surrounding application (`app_gestion_de_insumos.py` lines 61-65 and
271-272). -/

/-- A fully joined base row as it enters the final computations: the numeric
columns read by `calcular_cobertura` plus the material id, the descriptive
catalog fields and the total-consumed quantity `Cantidad`. -/
structure ResultRow extends CobRow where
  id_insumo : ℕ
  nombre_insumo : String
  familia : String
  familia_2 : String
  cantidad : ℚ
deriving DecidableEq

/-- pandas `mean` of a numeric column over a group: sum over count. -/
def media (l : List ℚ) : ℚ := l.sum / (l.length : ℚ)

/-- pandas groupby `first` over a string column of a (nonempty) group. -/
def primera (l : List String) : String := l.head?.getD ""

/-- The numeric columns of one per-material aggregate row as produced by
`df_base.groupby(['id_insumo']).agg(agg_dict)` (lines 190-213): the stock
tiers and `consumo_diario` are summed, the four ratio-like reference fields
are averaged.  These are exactly the columns that the second
`calcular_cobertura` call (line 217) then reads. -/
def vistaCobRow (g : List ResultRow) : CobRow :=
  { ratio_nominal := media (g.map (·.ratio_nominal))
    rendimiento := media (g.map (·.rendimiento))
    cobertura_ideal := media (g.map (·.cobertura_ideal))
    maxima_descarga := media (g.map (·.maxima_descarga))
    stock_libre_mas_calidad_produccion :=
      (g.map (·.stock_libre_mas_calidad_produccion)).sum
    stock_libre_mas_calidad_transito :=
      (g.map (·.stock_libre_mas_calidad_transito)).sum
    stock_libre_mas_calidad_hub :=
      (g.map (·.stock_libre_mas_calidad_hub)).sum
    stock_libre_mas_calidad_general :=
      (g.map (·.stock_libre_mas_calidad_general)).sum
    consumo_diario := (g.map (·.consumo_diario)).sum }

/-- One per-key output row of `procesar_datos`: the input row together with
every derived column. -/
structure FilaCompleta where
  fila : ResultRow
  stock_libre_mas_calidad : ℚ
  stock_cobertura_ideal : ℚ
  excedentes : ℚ
  faltantes : ℚ
  cobertura_teorica_con_stock_general : ℚ
  cobertura_teorica_con_stock_hub : ℚ
  cobertura_teorica_con_stock_transito : ℚ
  cobertura_teorica_con_stock_produccion : ℚ
  cobertura_real_general : ℚ
  cobertura_real_hub : ℚ
  cobertura_real_transito : ℚ
  cobertura_real_produccion : ℚ
deriving DecidableEq

/-- The per-key computation of `procesar_datos` (lines 158-187) on one
joined row. -/
def procesarFila (r : ResultRow) : FilaCompleta :=
  { fila := r
    stock_libre_mas_calidad := stock_total r.toCobRow
    stock_cobertura_ideal := stock_cobertura_ideal r.toCobRow
    excedentes := excedentes r.toCobRow
    faltantes := faltantes r.toCobRow
    cobertura_teorica_con_stock_general :=
      cobertura_teorica_con_stock r.toCobRow "general"
    cobertura_teorica_con_stock_hub :=
      cobertura_teorica_con_stock r.toCobRow "hub"
    cobertura_teorica_con_stock_transito :=
      cobertura_teorica_con_stock r.toCobRow "transito"
    cobertura_teorica_con_stock_produccion :=
      cobertura_teorica_con_stock r.toCobRow "produccion"
    cobertura_real_general := cobertura_real r.toCobRow "general"
    cobertura_real_hub := cobertura_real r.toCobRow "hub"
    cobertura_real_transito := cobertura_real r.toCobRow "transito"
    cobertura_real_produccion := cobertura_real r.toCobRow "produccion" }

/-- One row of the per-material view `df_vista_por_insumo`. -/
structure VistaCompleta where
  agg : CobRow
  stock_libre_mas_calidad : ℚ
  stock_cobertura_ideal : ℚ
  excedentes : ℚ
  faltantes : ℚ
  cantidad : ℚ
  nombre_insumo : String
  familia : String
  familia_2 : String
  cobertura_teorica_con_stock_general : ℚ
  cobertura_teorica_con_stock_hub : ℚ
  cobertura_teorica_con_stock_transito : ℚ
  cobertura_teorica_con_stock_produccion : ℚ
  cobertura_real_general : ℚ
  cobertura_real_hub : ℚ
  cobertura_real_transito : ℚ
  cobertura_real_produccion : ℚ
deriving DecidableEq

/-- The per-material aggregation (lines 190-217) over the rows of one
material: the `agg` dict sums the additive columns (including, at first,
`stock_cobertura_ideal`), averages the ratio-like ones and takes the first
descriptive value; the subsequent `calcular_cobertura` call on the
aggregate OVERWRITES `stock_cobertura_ideal` with the value recomputed from
the averaged reference fields (line 110 applied to the aggregate row) and
computes the coverage columns from the aggregated quantities.
`excedentes`/`faltantes` stay the plain sums — `calcular_cobertura` does
not touch them. -/
def procesarVista (g : List ResultRow) : VistaCompleta :=
  { agg := vistaCobRow g
    stock_libre_mas_calidad := (g.map (fun r => stock_total r.toCobRow)).sum
    stock_cobertura_ideal := stock_cobertura_ideal (vistaCobRow g)
    excedentes := (g.map (fun r => excedentes r.toCobRow)).sum
    faltantes := (g.map (fun r => faltantes r.toCobRow)).sum
    cantidad := (g.map (·.cantidad)).sum
    nombre_insumo := primera (g.map (·.nombre_insumo))
    familia := primera (g.map (·.familia))
    familia_2 := primera (g.map (·.familia_2))
    cobertura_teorica_con_stock_general :=
      cobertura_teorica_con_stock (vistaCobRow g) "general"
    cobertura_teorica_con_stock_hub :=
      cobertura_teorica_con_stock (vistaCobRow g) "hub"
    cobertura_teorica_con_stock_transito :=
      cobertura_teorica_con_stock (vistaCobRow g) "transito"
    cobertura_teorica_con_stock_produccion :=
      cobertura_teorica_con_stock (vistaCobRow g) "produccion"
    cobertura_real_general := cobertura_real (vistaCobRow g) "general"
    cobertura_real_hub := cobertura_real (vistaCobRow g) "hub"
    cobertura_real_transito := cobertura_real (vistaCobRow g) "transito"
    cobertura_real_produccion := cobertura_real (vistaCobRow g) "produccion" }

/-- `df_base.groupby(['id_insumo'])`: the rows of each distinct material. -/
def gruposPorInsumo (filas : List ResultRow) : List (List ResultRow) :=
  ((filas.map (·.id_insumo)).dedup).map
    (fun i => filas.filter (fun r => r.id_insumo == i))

/-- The per-material view: one aggregate row per material. -/
def vistaPorInsumo (filas : List ResultRow) : List VistaCompleta :=
  (gruposPorInsumo filas).map procesarVista

/-- The persisted output of one analysis run: the per-key sheet, the
per-material sheet, and the parameters sheet holding the tolerance
(`guardar_resultados`, line 272). -/
structure Salida where
  seguimiento_insumos : List FilaCompleta
  seguimiento_por_insumo : List VistaCompleta
  tolerancia : ℚ
deriving DecidableEq

/-- `ejecutar_analisis`: the analysis pipeline over the joined base rows.
The tolerance collected by `configurar_parametros` is carried through
verbatim to the parameters sheet and read by no computation. -/
def ejecutar_analisis (filas : List ResultRow) (tolerancia : ℚ) : Salida :=
  { seguimiento_insumos := filas.map procesarFila
    seguimiento_por_insumo := vistaPorInsumo filas
    tolerancia := tolerancia }

/-- Claim C4, counterexample: a material with two rows whose nominal ratios
are 1 and 3 (all other reference fields 1).  The per-key coverage targets
are 1 and 3, summing to 4, but the aggregate view's coverage-target column
is 2 — recomputed from the averaged ratio (mean = 2) — so it does NOT equal
the sum of the per-key values as the claim states. -/
theorem c4_counterexample :
    (procesarVista
      [⟨⟨1, 1, 1, 1, 0, 0, 0, 0, 0⟩, 7, "N", "F", "F2", 0⟩,
       ⟨⟨3, 1, 1, 1, 0, 0, 0, 0, 0⟩, 7, "N", "F", "F2", 0⟩]).stock_cobertura_ideal = 2 ∧
    (([⟨⟨1, 1, 1, 1, 0, 0, 0, 0, 0⟩, 7, "N", "F", "F2", 0⟩,
       ⟨⟨3, 1, 1, 1, 0, 0, 0, 0, 0⟩, 7, "N", "F", "F2", 0⟩] :
        List ResultRow).map (fun r => stock_cobertura_ideal r.toCobRow)).sum = 4 ∧
    ¬ ((procesarVista
      [⟨⟨1, 1, 1, 1, 0, 0, 0, 0, 0⟩, 7, "N", "F", "F2", 0⟩,
       ⟨⟨3, 1, 1, 1, 0, 0, 0, 0, 0⟩, 7, "N", "F", "F2", 0⟩]).stock_cobertura_ideal =
      (([⟨⟨1, 1, 1, 1, 0, 0, 0, 0, 0⟩, 7, "N", "F", "F2", 0⟩,
         ⟨⟨3, 1, 1, 1, 0, 0, 0, 0, 0⟩, 7, "N", "F", "F2", 0⟩] :
          List ResultRow).map (fun r => stock_cobertura_ideal r.toCobRow)).sum) := by
  norm_num [procesarVista, vistaCobRow, stock_cobertura_ideal, media]

/-- Claim C4 (amended): in the per-material aggregate view the four tier
stocks, total stock, surplus, shortage, total-consumed quantity and daily
rate are the sums of the per-key values; nominal_ratio, yield,
ideal_coverage_days and max_unload_capacity are the arithmetic means;
descriptive fields keep the first value; the theoretical/real coverage
columns are recomputed from the aggregated quantities by the same formulas
as the per-key computation; BUT the coverage-target column is not the sum:
it is overwritten by the recomputation
mean(ratio) × mean(capacity) / mean(yield) × mean(ideal days). -/
theorem c4_vista_agregada (g : List ResultRow) (h : g ≠ []) :
    (procesarVista g).agg.stock_libre_mas_calidad_produccion =
      (g.map (·.stock_libre_mas_calidad_produccion)).sum ∧
    (procesarVista g).agg.stock_libre_mas_calidad_transito =
      (g.map (·.stock_libre_mas_calidad_transito)).sum ∧
    (procesarVista g).agg.stock_libre_mas_calidad_hub =
      (g.map (·.stock_libre_mas_calidad_hub)).sum ∧
    (procesarVista g).agg.stock_libre_mas_calidad_general =
      (g.map (·.stock_libre_mas_calidad_general)).sum ∧
    (procesarVista g).stock_libre_mas_calidad =
      (g.map (fun r => stock_total r.toCobRow)).sum ∧
    (procesarVista g).excedentes = (g.map (fun r => excedentes r.toCobRow)).sum ∧
    (procesarVista g).faltantes = (g.map (fun r => faltantes r.toCobRow)).sum ∧
    (procesarVista g).cantidad = (g.map (·.cantidad)).sum ∧
    (procesarVista g).agg.consumo_diario = (g.map (·.consumo_diario)).sum ∧
    (procesarVista g).agg.ratio_nominal =
      (g.map (·.ratio_nominal)).sum / (g.length : ℚ) ∧
    (procesarVista g).agg.rendimiento =
      (g.map (·.rendimiento)).sum / (g.length : ℚ) ∧
    (procesarVista g).agg.cobertura_ideal =
      (g.map (·.cobertura_ideal)).sum / (g.length : ℚ) ∧
    (procesarVista g).agg.maxima_descarga =
      (g.map (·.maxima_descarga)).sum / (g.length : ℚ) ∧
    (procesarVista g).nombre_insumo = (g.head h).nombre_insumo ∧
    (procesarVista g).familia = (g.head h).familia ∧
    (procesarVista g).familia_2 = (g.head h).familia_2 ∧
    (procesarVista g).stock_cobertura_ideal =
      (procesarVista g).agg.ratio_nominal * (procesarVista g).agg.maxima_descarga /
        (procesarVista g).agg.rendimiento * (procesarVista g).agg.cobertura_ideal ∧
    (procesarVista g).cobertura_teorica_con_stock_general =
      cobertura_teorica_con_stock (procesarVista g).agg "general" ∧
    (procesarVista g).cobertura_teorica_con_stock_hub =
      cobertura_teorica_con_stock (procesarVista g).agg "hub" ∧
    (procesarVista g).cobertura_teorica_con_stock_transito =
      cobertura_teorica_con_stock (procesarVista g).agg "transito" ∧
    (procesarVista g).cobertura_teorica_con_stock_produccion =
      cobertura_teorica_con_stock (procesarVista g).agg "produccion" ∧
    (procesarVista g).cobertura_real_general =
      cobertura_real (procesarVista g).agg "general" ∧
    (procesarVista g).cobertura_real_hub =
      cobertura_real (procesarVista g).agg "hub" ∧
    (procesarVista g).cobertura_real_transito =
      cobertura_real (procesarVista g).agg "transito" ∧
    (procesarVista g).cobertura_real_produccion =
      cobertura_real (procesarVista g).agg "produccion" := by
  cases g with
  | nil => exact absurd rfl h
  | cons a t =>
    refine ⟨rfl, rfl, rfl, rfl, rfl, rfl, rfl, rfl, rfl, ?_, ?_, ?_, ?_,
      rfl, rfl, rfl, rfl, rfl, rfl, rfl, rfl, rfl, rfl, rfl, rfl⟩ <;>
      simp [procesarVista, vistaCobRow, media, List.length_map]

/-- Claim C4 witness: the amended theorem applied to a singleton group. -/
theorem c4_witness :
    (procesarVista
      [⟨⟨1, 1, 1, 1, 0, 0, 0, 0, 0⟩, 7, "N", "F", "F2", 0⟩]).agg.stock_libre_mas_calidad_produccion =
      (([⟨⟨1, 1, 1, 1, 0, 0, 0, 0, 0⟩, 7, "N", "F", "F2", 0⟩] :
        List ResultRow).map (·.stock_libre_mas_calidad_produccion)).sum :=
  (c4_vista_agregada [⟨⟨1, 1, 1, 1, 0, 0, 0, 0, 0⟩, 7, "N", "F", "F2", 0⟩]
    (List.cons_ne_nil _ _)).1

/-- Claim C8: two analysis runs over the same joined input rows that differ
only in the tolerance parameter produce identical per-key and per-material
result tables; the tolerance is carried verbatim into the parameters sheet
and consumed by nothing else. -/
theorem c8_tolerancia_no_interferencia (filas : List ResultRow) (t1 t2 : ℚ) :
    (ejecutar_analisis filas t1).seguimiento_insumos =
      (ejecutar_analisis filas t2).seguimiento_insumos ∧
    (ejecutar_analisis filas t1).seguimiento_por_insumo =
      (ejecutar_analisis filas t2).seguimiento_por_insumo ∧
    (ejecutar_analisis filas t1).tolerancia = t1 ∧
    (ejecutar_analisis filas t2).tolerancia = t2 :=
  ⟨rfl, rfl, rfl, rfl⟩

/-! ## Missing consumption rows and IEEE special values
`procesar_datos` fills stock NaNs with 0 at line 173, BEFORE the
consumption left-merge of line 183, so a base row whose key has no
consumption row reaches `calcular_cobertura` with rational stocks but a
NaN `consumo_diario`.  `FVal` embeds the float values that can then occur
in the real-coverage columns. -/

/-- A float value as far as the real-coverage computation can observe it:
a finite rational, one of the two infinities, or NaN. -/
inductive FVal where
  | num : ℚ → FVal
  | inf : FVal
  | neginf : FVal
  | nan : FVal
deriving DecidableEq

/-- IEEE division of a finite numerator by a possibly missing or
non-finite denominator, as numpy evaluates `acumulado / consumo_diario`:
x/0 is ±inf for x ≠ 0 and NaN for x = 0; anything divided by NaN is NaN. -/
def fdiv (a : ℚ) (b : FVal) : FVal :=
  match b with
  | .num q =>
    if q = 0 then (if a = 0 then .nan else if 0 < a then .inf else .neginf)
    else .num (a / q)
  | .inf => .num 0
  | .neginf => .num 0
  | .nan => .nan

/-- Line 136: `df[cobertura_cols].replace([np.inf, -np.inf], 0)` — both
infinities become 0; NaN is NOT replaced. -/
def replaceInf0 (v : FVal) : FVal :=
  match v with
  | .inf => .num 0
  | .neginf => .num 0
  | v => v

/-- The consumption left-merge of line 183, observed on the
`consumo_diario` column: the value for the row's composite key, or NaN when
the key has no consumption row (composite keys are assumed unique in the
consumption table). -/
def mergeConsumo (consumo : List (String × ℚ)) (key : String) : FVal :=
  match consumo.find? (fun p => p.1 == key) with
  | some p => .num p.2
  | none => .nan

/-- Lines 128-136 evaluated on a base row whose daily rate comes from the
left merge: the final real-coverage column value. -/
def cobertura_real_combinada (r : CobRow) (consumo : List (String × ℚ))
    (key tipo : String) : FVal :=
  replaceInf0
    (if r.ratio_nominal ≠ 0 then
      fdiv (acumulado r tipo) (mergeConsumo consumo key)
    else .num 0)

/-- Claim C10: a base row with non-zero nominal ratio whose composite key
has no row in the consumption table gets NaN — not 0 — in every
real-coverage column: the zero-fill ran before the consumption join, and
the final replacement only maps ±inf to 0, leaving NaN alone. -/
theorem c10_cobertura_real_nan (r : CobRow) (consumo : List (String × ℚ))
    (key tipo : String) (hr : r.ratio_nominal ≠ 0)
    (habs : ∀ p ∈ consumo, p.1 ≠ key) :
    cobertura_real_combinada r consumo key tipo = FVal.nan ∧
    cobertura_real_combinada r consumo key tipo ≠ FVal.num 0 := by
  have hfind : consumo.find? (fun p => p.1 == key) = none := by
    apply List.find?_eq_none.mpr
    intro p hp
    simp [habs p hp]
  have hm : mergeConsumo consumo key = FVal.nan := by
    simp only [mergeConsumo, hfind]
  have hval : cobertura_real_combinada r consumo key tipo = FVal.nan := by
    rw [cobertura_real_combinada, hm, if_pos hr]
    rfl
  refine ⟨hval, ?_⟩
  rw [hval]
  exact fun hcon => FVal.noConfusion hcon

/-- Claim C10 witness: the theorem applied to a concrete row and a
consumption table not containing its key. -/
theorem c10_witness :
    cobertura_real_combinada ⟨1, 1, 1, 1, 0, 0, 0, 0, 0⟩ [("B1", 3)]
      "A1" "general" = FVal.nan ∧
    cobertura_real_combinada ⟨1, 1, 1, 1, 0, 0, 0, 0, 0⟩ [("B1", 3)]
      "A1" "general" ≠ FVal.num 0 :=
  c10_cobertura_real_nan ⟨1, 1, 1, 1, 0, 0, 0, 0, 0⟩ [("B1", 3)] "A1"
    "general" (by norm_num) (by decide)
